import Mathlib

/-!
Shallow embedding of the smartshop-predictor analytics core.

Timestamps are modelled as integer seconds since an epoch (Python
`datetime` values); a Python `timedelta.days` access is floor division of
the signed second difference by 86400 (`Int.fdiv`).  Python floats are
idealised as exact rationals (`ℚ`).  A nullable float column is
`Option ℚ`; Python truthiness on such a value (`if x:`) is "present and
nonzero".

Sources embedded:
- `app/services/purchase_analytics_service.py` (`update_analytics`)
- `app/models/product_analytics.py` (`get_urgency_status`,
  `get_prediction_message`)
- `app/services/purchase_prediction_service.py` (`get_predicted_purchases`)
-/

namespace SmartShop

/-- Python `(a_datetime - b_datetime).days`: the signed difference in
seconds, floor-divided by the number of seconds in a day. -/
def daysOf (d : Int) : Int := Int.fdiv d 86400

/-- Python truthiness of a nullable float: `None` and `0.0` are falsy. -/
def pyTruthy (o : Option ℚ) : Bool :=
  match o with
  | none => false
  | some q => q != 0

/-- The `ProductAnalytics` record (`app/models/product_analytics.py`),
restricted to the columns the analytics and prediction services read or
write.  Nullable `Float`/`DateTime` columns are `Option`s. -/
structure ProductAnalytics where
  user_id : Nat
  product_name : String
  total_purchases : Nat
  last_purchase_date : Option Int
  avg_days_between_purchases : Option ℚ
  days_since_last_purchase : Option ℚ
  min_days_interval : Option ℚ
  max_days_interval : Option ℚ
  repurchase_urgency : ℚ
  repurchase_probability : ℚ
  estimated_next_purchase_date : Option ℚ
deriving Repr, DecidableEq

/-- The consecutive purchase-interval list of
`purchase_analytics_service.py` lines 76–79:
`(purchases[i].purchase_date - purchases[i-1].purchase_date).days`
for `i = 1 .. n-1`, in order. -/
def gapsDays : List Int → List Int
  | a :: b :: rest => daysOf (b - a) :: gapsDays (b :: rest)
  | _ => []

/-- `PurchaseAnalyticsService.update_analytics`
(`purchase_analytics_service.py` lines 56–132), with the storage reads
made explicit: `purchases` is the ascending-by-date list of purchase
timestamps for (user, product) and `occasions` is the user's count of
distinct purchase dates across all items.  Returns `none` when the
purchase list is empty (the Python early return of `None`). -/
def update_analytics (user_id : Nat) (product_name : String)
    (purchases : List Int) (now : Int) (occasions : Nat) :
    Option ProductAnalytics :=
  match purchases with
  | [] => none
  | p :: ps =>
    let total_purchases := (p :: ps).length
    let last_purchase_date := (p :: ps).getLast (List.cons_ne_nil p ps)
    let first_purchase_date := p
    let avg_days : Option ℚ :=
      if total_purchases > 1 then
        some ((daysOf (last_purchase_date - first_purchase_date) : ℚ) /
          ((total_purchases : ℚ) - 1))
      else none
    let days_since_last : Int := daysOf (now - last_purchase_date)
    let intervals : List Int := gapsDays (p :: ps)
    let min_interval : Option Int := intervals.min?
    let max_interval : Option Int := intervals.max?
    let urgency_score : ℚ :=
      match avg_days with
      | some a => if 0 < a then ((days_since_last : ℚ) / a) * 100 else 0
      | none => 0
    let total_purchase_dates : Nat := if occasions = 0 then 1 else occasions
    let repurchase_probability : ℚ :=
      (total_purchases : ℚ) / (total_purchase_dates : ℚ) * 100
    let estimated_next : Option ℚ :=
      match avg_days with
      | some a => if a ≠ 0 then some ((last_purchase_date : ℚ) + a * 86400)
        else none
      | none => none
    some
      { user_id := user_id
        product_name := product_name
        total_purchases := total_purchases
        last_purchase_date := some last_purchase_date
        avg_days_between_purchases := avg_days
        days_since_last_purchase := some (days_since_last : ℚ)
        min_days_interval :=
          match min_interval with
          | some m => if m ≠ 0 then some (m : ℚ) else none
          | none => none
        max_days_interval :=
          match max_interval with
          | some m => if m ≠ 0 then some (m : ℚ) else none
          | none => none
        repurchase_urgency := urgency_score
        repurchase_probability := repurchase_probability
        estimated_next_purchase_date := estimated_next }

/-- `ProductAnalytics.get_urgency_status`
(`product_analytics.py` lines 95–106). -/
def ProductAnalytics.get_urgency_status (a : ProductAnalytics) : String :=
  if a.repurchase_urgency ≥ 100 then "🔴 OVERDUE"
  else if a.repurchase_urgency ≥ 85 then "🟠 URGENT"
  else if a.repurchase_urgency ≥ 70 then "🟡 SOON"
  else if a.repurchase_urgency ≥ 50 then "🟢 UPCOMING"
  else "⚪ OPTIONAL"

/-- Python `round` to nearest integer with ties to even, as performed by
the `:.0f` float format specifier. -/
def roundHalfEven (q : ℚ) : Int :=
  let f := ⌊q⌋
  let r := q - (f : ℚ)
  if r < 1/2 then f
  else if 1/2 < r then f + 1
  else if f % 2 = 0 then f else f + 1

/-- `ProductAnalytics.get_prediction_message`
(`product_analytics.py` lines 108–112).  The guard is Python truthiness
of the two nullable floats; `:.0f` renders the rounded value. -/
def ProductAnalytics.get_prediction_message (a : ProductAnalytics) : String :=
  if pyTruthy a.avg_days_between_purchases &&
      pyTruthy a.days_since_last_purchase then
    "You usually buy " ++ a.product_name ++ " every " ++
      toString (roundHalfEven ((a.avg_days_between_purchases).getD 0)) ++
      " days. Last purchase: " ++
      toString (roundHalfEven ((a.days_since_last_purchase).getD 0)) ++
      " days ago."
  else
    "Not enough data for " ++ a.product_name ++ " predictions yet."

/-- One entry of the dict list built by
`PurchasePredictionService.get_predicted_purchases`
(`purchase_prediction_service.py` lines 68–78). -/
structure Prediction where
  product_name : String
  urgency : ℚ
  confidence : ℚ
  days_since_last : Int
  avg_interval : Int
  status : String
  message : String
  last_purchase : Option Int
  estimated_next : Option ℚ
deriving Repr, DecidableEq

/-- Python `int(x or 0)` on a nullable float: `None` (and `0.0`) becomes
`0`; any other value is truncated toward zero. -/
def pyIntOr0 (o : Option ℚ) : Int :=
  match o with
  | none => 0
  | some q => if 0 ≤ q then ⌊q⌋ else ⌈q⌉

/-- The prediction dict built from one analytics row
(`purchase_prediction_service.py` lines 68–78). -/
def mkPrediction (a : ProductAnalytics) : Prediction :=
  { product_name := a.product_name
    urgency := a.repurchase_urgency
    confidence := a.repurchase_probability
    days_since_last := pyIntOr0 a.days_since_last_purchase
    avg_interval := pyIntOr0 a.avg_days_between_purchases
    status := a.get_urgency_status
    message := a.get_prediction_message
    last_purchase := a.last_purchase_date
    estimated_next := a.estimated_next_purchase_date }

/-- `PurchasePredictionService.get_predicted_purchases`
(`purchase_prediction_service.py` lines 51–86), with the storage read
made explicit: `fetched` is the outcome of reading the user's analytics
rows.  On a storage failure the `except` branch returns the empty list.
On success, rows are filtered to `repurchase_urgency >= threshold` and
`repurchase_probability > 0`, sorted by urgency descending, truncated to
`limit`, and formatted. -/
def get_predicted_purchases (fetched : Except String (List ProductAnalytics))
    (urgency_threshold : ℚ) (limit : Nat) : List Prediction :=
  match fetched with
  | .error _ => []
  | .ok rows =>
    ((rows.filter fun a =>
        decide (urgency_threshold ≤ a.repurchase_urgency) &&
        decide (0 < a.repurchase_probability)).mergeSort
      (fun a b => decide (b.repurchase_urgency ≤ a.repurchase_urgency))
      |>.take limit).map mkPrediction

/-- The per-interval average the spec contrasts with the span-based
formula: the arithmetic mean of the individual consecutive gap lengths
(absent when there is no gap).  Stated from the spec's words for
comparison with the code's computation. -/
def meanOfGaps (purchases : List Int) : Option ℚ :=
  match gapsDays purchases with
  | [] => none
  | g :: gs => some (((g :: gs).map (fun x => (x : ℚ))).sum /
      ((g :: gs).length : ℚ))

/-- An analytics row with the given name, nullable interval fields and
scores, as the prediction layer may read it back from storage. -/
def probeRecord (name : String) (avg days : Option ℚ)
    (urgency probability : ℚ) : ProductAnalytics :=
  { user_id := 0
    product_name := name
    total_purchases := 0
    last_purchase_date := none
    avg_days_between_purchases := avg
    days_since_last_purchase := days
    min_days_interval := none
    max_days_interval := none
    repurchase_urgency := urgency
    repurchase_probability := probability
    estimated_next_purchase_date := none }

/-- A `min?` that returns `some m` names the least element of the list. -/
theorem min?_spec_int {xs : List Int} {m : Int} (h : xs.min? = some m) :
    m ∈ xs ∧ ∀ b ∈ xs, m ≤ b := by
  haveI : Std.Antisymm ((· ≤ ·) : Int → Int → Prop) :=
    ⟨fun h1 h2 => le_antisymm h1 h2⟩
  rw [List.min?_eq_some_iff] at h
  · exact h
  · exact fun a => le_refl a
  · exact fun a b => min_choice a b
  · exact fun a b c => le_min_iff

/-- A `max?` that returns `some m` names the greatest element of the
list. -/
theorem max?_spec_int {xs : List Int} {m : Int} (h : xs.max? = some m) :
    m ∈ xs ∧ ∀ b ∈ xs, b ≤ m := by
  haveI : Std.Antisymm ((· ≤ ·) : Int → Int → Prop) :=
    ⟨fun h1 h2 => le_antisymm h1 h2⟩
  rw [List.max?_eq_some_iff] at h
  · exact h
  · exact fun a => le_refl a
  · exact fun a b => max_choice a b
  · exact fun a b c => max_le_iff

/-- C8: with exactly one purchase event, `update_analytics` produces a
record whose `avg_days_between_purchases`, `min_days_interval`,
`max_days_interval` and `estimated_next_purchase_date` are all absent
and whose `repurchase_urgency` is 0. -/
theorem spec2proof_C8 (uid : Nat) (name : String) (t now : Int)
    (occ : Nat) :
    (update_analytics uid name [t] now occ).map
      (fun a => (a.avg_days_between_purchases, a.min_days_interval,
        a.max_days_interval, a.estimated_next_purchase_date,
        a.repurchase_urgency)) =
      some (none, none, none, none, 0) := rfl

/-- C9: when the storage read fails, `get_predicted_purchases` returns
the empty list instead of propagating the failure. -/
theorem spec2proof_C9 (e : String) (th : ℚ) (lim : Nat) :
    get_predicted_purchases (Except.error e) th lim = [] := rfl

/-- C1: for every ascending purchase sequence of length at least 2,
`update_analytics` sets `avg_days_between_purchases` to the span-based
formula `(last - first).days / (n - 1)`; moreover that formula is not
the mean of the individual consecutive gaps: on the purchases at 0, 1.5
and 3 days the span formula gives 3/2 while the gap mean gives 1. -/
theorem spec2proof_C1 (uid : Nat) (name : String) (p : Int)
    (ps : List Int) (now : Int) (occ : Nat)
    (_hasc : (p :: ps).Chain' (· ≤ ·)) (hlen : 2 ≤ (p :: ps).length) :
    (update_analytics uid name (p :: ps) now occ).map
      (fun a => a.avg_days_between_purchases) =
      some (some
        ((daysOf ((p :: ps).getLast (List.cons_ne_nil p ps) - p) : ℚ) /
          (((p :: ps).length : ℚ) - 1))) ∧
    ((update_analytics 1 "Milk" [0, 129600, 259200] 259200 1).map
        (fun a => a.avg_days_between_purchases) = some (some (3/2)) ∧
      meanOfGaps [0, 129600, 259200] = some 1 ∧ ((3 : ℚ)/2) ≠ 1) := by
  refine ⟨?_, ?_, by simp [meanOfGaps, gapsDays, daysOf], by norm_num⟩
  · simp only [update_analytics, Option.map_some']
    rw [if_pos (by omega : (p :: ps).length > 1)]
  · simp [update_analytics, daysOf]
    norm_num

/-- C1 witness: three purchases exactly one day apart, evaluated. -/
theorem spec2proof_C1_witness :
    (update_analytics 2 "Bread" [0, 86400, 172800] 172800 3).map
      (fun a => a.avg_days_between_purchases) = some (some 1) := by
  have h := (spec2proof_C1 2 "Bread" 0 [86400, 172800] 172800 3
    (by norm_num [List.chain'_cons]) (by decide)).1
  have h2 : (2 : ℚ) / (3 - 1) = 1 := by norm_num
  simpa [daysOf, List.getLast, h2] using h

/-- C2 counterexample, refuting both parts of the claim.  First, the
claim asserts `repurchase_urgency ≥ 0` for every input, including a
last purchase in the future of `now`; but for two purchases 7 days
apart with `now` at the first purchase the code computes
`days_since_last = -7` and an urgency of `-100 < 0`.  Second, the claim
asserts urgency equals 0 exactly when `avg_days_between_purchases` is
absent or ≤ 0; but for the same two purchases with `now` at the second
purchase the code stores a present, positive average of 7 and still
computes urgency 0 (because `days_since_last = 0`), so the only-if
direction fails as well. -/
theorem spec2proof_C2_cex :
    ((update_analytics 3 "Milk" [0, 604800] 0 1).map
      (fun a => a.repurchase_urgency) = some (-100) ∧
     ((-100 : ℚ) < 0)) ∧
    ((update_analytics 3 "Milk" [0, 604800] 604800 1).map
      (fun a => (a.avg_days_between_purchases, a.repurchase_urgency)) =
        some (some 7, 0) ∧
     ((0 : ℚ) < 7)) := by
  refine ⟨⟨?_, by norm_num⟩, ⟨?_, by norm_num⟩⟩
  · simp [update_analytics, daysOf]
    norm_num
  · simp [update_analytics, daysOf]
    norm_num

/-- C2 (amended): `repurchase_urgency` is nonnegative whenever `now` is
not before the last purchase timestamp, and it is 0 whenever
`avg_days_between_purchases` is absent or not positive; with a future
last purchase the score may be negative (see the counterexample). -/
theorem spec2proof_C2 (uid : Nat) (name : String) (p : Int)
    (ps : List Int) (now : Int) (occ : Nat) (a : ProductAnalytics)
    (ha : update_analytics uid name (p :: ps) now occ = some a) :
    ((p :: ps).getLast (List.cons_ne_nil p ps) ≤ now →
      0 ≤ a.repurchase_urgency) ∧
    (a.avg_days_between_purchases = none → a.repurchase_urgency = 0) ∧
    (∀ v, a.avg_days_between_purchases = some v → v ≤ 0 →
      a.repurchase_urgency = 0) := by
  simp only [update_analytics, Option.some.injEq] at ha
  subst ha
  by_cases hc : (p :: ps).length > 1
  · simp only [if_pos hc]
    refine ⟨?_, ?_, ?_⟩
    · intro hle
      have hd : (0 : Int) ≤
          daysOf (now - (p :: ps).getLast (List.cons_ne_nil p ps)) :=
        Int.fdiv_nonneg (by omega) (by norm_num)
      have hd' : (0 : ℚ) ≤
          ((daysOf (now - (p :: ps).getLast (List.cons_ne_nil p ps)) :
            Int) : ℚ) := by exact_mod_cast hd
      show (0 : ℚ) ≤ if 0 < _ then _ else _
      split_ifs with hpos
      · have := div_nonneg hd' (le_of_lt hpos)
        positivity
      · exact le_refl 0
    · intro h
      exact absurd h (by simp)
    · intro v hv hle
      simp only [Option.some.injEq] at hv
      show (if 0 < _ then _ else _) = 0
      rw [if_neg]
      rw [← hv] at hle
      exact not_lt.mpr hle
  · simp only [if_neg hc]
    refine ⟨?_, ?_, ?_⟩
    · intro _
      exact le_refl 0
    · intro _
      trivial
    · intro v hv _
      exact absurd hv (by simp)

/-- The analytics row `update_analytics` produces for user 7, item
"Milk", purchases at days 0 and 7 (in seconds), `now` at day 14 and two
distinct purchase occasions. -/
def milkWeekRecord : ProductAnalytics :=
  { user_id := 7
    product_name := "Milk"
    total_purchases := 2
    last_purchase_date := some 604800
    avg_days_between_purchases := some 7
    days_since_last_purchase := some 7
    min_days_interval := some 7
    max_days_interval := some 7
    repurchase_urgency := 100
    repurchase_probability := 100
    estimated_next_purchase_date := some 1209600 }

/-- The `milkWeekRecord` row really is the output of `update_analytics`
on those inputs. -/
theorem milkWeekRecord_eq :
    update_analytics 7 "Milk" [0, 604800] 1209600 2 =
      some milkWeekRecord := by
  simp [update_analytics, daysOf, gapsDays, milkWeekRecord]
  norm_num

/-- C2 witness: two purchases a week apart queried a week after the
last one; the recomputed urgency (100) is nonnegative. -/
theorem spec2proof_C2_witness :
    (0 : ℚ) ≤ milkWeekRecord.repurchase_urgency := by
  refine (spec2proof_C2 7 "Milk" 0 [604800] 1209600 2 milkWeekRecord
    milkWeekRecord_eq).1 ?_
  decide

/-- C3 counterexample: the claim asserts that with n ≥ 2 events the
`min_days_interval`/`max_days_interval` fields are always present; but
for two purchases at the same timestamp the only gap is 0 days, and the
Python truthiness guard `float(min_interval) if min_interval else None`
stores both fields as absent. -/
theorem spec2proof_C3_cex :
    (update_analytics 3 "Eggs" [0, 0] 5 1).map
      (fun a => (a.min_days_interval, a.max_days_interval)) =
      some (none, none) ∧
    2 ≤ ([0, 0] : List Int).length := by
  constructor
  · simp [update_analytics, daysOf, gapsDays]
  · decide

/-- C3 (amended): with n ≥ 2 events, `min_days_interval` (resp.
`max_days_interval`) equals the least (resp. greatest) consecutive gap
when that extreme is nonzero, and is absent when the extreme is 0; when
both fields are present, `min_days_interval ≤ max_days_interval`. -/
theorem spec2proof_C3 (uid : Nat) (name : String) (p : Int)
    (ps : List Int) (now : Int) (occ : Nat) (a : ProductAnalytics)
    (ha : update_analytics uid name (p :: ps) now occ = some a)
    (hlen : 2 ≤ (p :: ps).length) :
    (∃ m, m ∈ gapsDays (p :: ps) ∧ (∀ g ∈ gapsDays (p :: ps), m ≤ g) ∧
      a.min_days_interval = if m ≠ 0 then some (m : ℚ) else none) ∧
    (∃ M, M ∈ gapsDays (p :: ps) ∧ (∀ g ∈ gapsDays (p :: ps), g ≤ M) ∧
      a.max_days_interval = if M ≠ 0 then some (M : ℚ) else none) ∧
    (∀ x y, a.min_days_interval = some x → a.max_days_interval = some y →
      x ≤ y) := by
  simp only [update_analytics, Option.some.injEq] at ha
  subst ha
  obtain ⟨q, rest, rfl⟩ : ∃ q rest, ps = q :: rest := by
    cases ps with
    | nil => simp at hlen
    | cons q rest => exact ⟨q, rest, rfl⟩
  have hne : gapsDays (p :: q :: rest) ≠ [] := by simp [gapsDays]
  obtain ⟨m, hm⟩ : ∃ m, (gapsDays (p :: q :: rest)).min? = some m := by
    cases hmin : (gapsDays (p :: q :: rest)).min? with
    | none => exact absurd (List.min?_eq_none_iff.mp hmin) hne
    | some m => exact ⟨m, rfl⟩
  obtain ⟨M, hM⟩ : ∃ M, (gapsDays (p :: q :: rest)).max? = some M := by
    cases hmax : (gapsDays (p :: q :: rest)).max? with
    | none => exact absurd (List.max?_eq_none_iff.mp hmax) hne
    | some M => exact ⟨M, rfl⟩
  obtain ⟨hmem, hlb⟩ := min?_spec_int hm
  obtain ⟨hMem, hub⟩ := max?_spec_int hM
  refine ⟨⟨m, hmem, hlb, by simp only [hm]⟩,
    ⟨M, hMem, hub, by simp only [hM]⟩, ?_⟩
  intro x y hx hy
  simp only [hm] at hx
  simp only [hM] at hy
  split_ifs at hx hy
  simp only [Option.some.injEq] at hx hy
  subst hx; subst hy
  exact_mod_cast hlb M hMem

/-- C3 witness: the week-apart Milk record, whose single gap of 7 days
is both the least and the greatest gap and is stored in both fields. -/
theorem spec2proof_C3_witness :
    (∃ m, m ∈ gapsDays [0, 604800] ∧
      (∀ g ∈ gapsDays [0, 604800], m ≤ g) ∧
      milkWeekRecord.min_days_interval =
        if m ≠ 0 then some (m : ℚ) else none) ∧
    (∃ M, M ∈ gapsDays [0, 604800] ∧
      (∀ g ∈ gapsDays [0, 604800], g ≤ M) ∧
      milkWeekRecord.max_days_interval =
        if M ≠ 0 then some (M : ℚ) else none) ∧
    (∀ x y, milkWeekRecord.min_days_interval = some x →
      milkWeekRecord.max_days_interval = some y → x ≤ y) :=
  spec2proof_C3 7 "Milk" 0 [604800] 1209600 2 milkWeekRecord
    milkWeekRecord_eq (by decide)

/-- C4 counterexample: the claim asserts
`estimated_next_purchase_date` is present whenever
`avg_days_between_purchases` is present, including with value 0; but
for two purchases one hour apart the code stores `avg = 0.0` and the
truthy guard `if avg_days:` leaves the estimate absent. -/
theorem spec2proof_C4_cex :
    (update_analytics 3 "Milk" [0, 3600] 0 1).map
      (fun a => (a.avg_days_between_purchases,
        a.estimated_next_purchase_date)) =
      some (some 0, none) := by
  simp [update_analytics, daysOf, gapsDays]

/-- C4 (amended): `estimated_next_purchase_date` is present exactly when
`avg_days_between_purchases` is present with a nonzero value, and then
equals the last purchase timestamp plus that many days. -/
theorem spec2proof_C4 (uid : Nat) (name : String) (p : Int)
    (ps : List Int) (now : Int) (occ : Nat) (a : ProductAnalytics)
    (ha : update_analytics uid name (p :: ps) now occ = some a) :
    a.estimated_next_purchase_date =
      (match a.avg_days_between_purchases with
       | some v => if v ≠ 0 then
           some (((p :: ps).getLast (List.cons_ne_nil p ps) : ℚ) +
             v * 86400)
         else none
       | none => none) := by
  simp only [update_analytics, Option.some.injEq] at ha
  subst ha
  rfl

/-- C4 witness: the week-apart Milk record, whose estimate is the last
purchase plus 7 days. -/
theorem spec2proof_C4_witness :
    milkWeekRecord.estimated_next_purchase_date =
      (match milkWeekRecord.avg_days_between_purchases with
       | some v => if v ≠ 0 then
           some ((([0, 604800] : List Int).getLast
             (List.cons_ne_nil 0 [604800]) : ℚ) + v * 86400)
         else none
       | none => none) :=
  spec2proof_C4 7 "Milk" 0 [604800] 1209600 2 milkWeekRecord
    milkWeekRecord_eq

/-- C5 counterexample: the claim asserts the full prediction message
whenever both `avg_days_between_purchases` and
`days_since_last_purchase` are present, including a present value of 0;
but for a record with `avg = 7` and `days_since = 0` (an item bought
today) Python truthiness takes the "Not enough data" branch. -/
theorem spec2proof_C5_cex :
    (probeRecord "Milk" (some 7) (some 0) 0 50).get_prediction_message =
      "Not enough data for Milk predictions yet." ∧
    (probeRecord "Milk" (some 7) (some 0) 0 50).get_prediction_message ≠
      "You usually buy Milk every 7 days. Last purchase: 0 days ago." := by
  constructor
  · rfl
  · intro h
    rw [show (probeRecord "Milk" (some 7) (some 0) 0 50
        ).get_prediction_message =
      "Not enough data for Milk predictions yet." from rfl] at h
    exact absurd h (by decide)

/-- C5 (amended): the full "You usually buy ..." message is produced
exactly when both `avg_days_between_purchases` and
`days_since_last_purchase` are present AND nonzero; if either is absent
or zero the "Not enough data" message is produced. -/
theorem spec2proof_C5 (a : ProductAnalytics) :
    (∀ v d, a.avg_days_between_purchases = some v → v ≠ 0 →
      a.days_since_last_purchase = some d → d ≠ 0 →
      a.get_prediction_message =
        "You usually buy " ++ a.product_name ++ " every " ++
          toString (roundHalfEven v) ++ " days. Last purchase: " ++
          toString (roundHalfEven d) ++ " days ago.") ∧
    ((pyTruthy a.avg_days_between_purchases = false ∨
      pyTruthy a.days_since_last_purchase = false) →
      a.get_prediction_message =
        "Not enough data for " ++ a.product_name ++
          " predictions yet.") := by
  constructor
  · intro v d hv hv0 hd hd0
    simp [ProductAnalytics.get_prediction_message, pyTruthy, hv, hd,
      hv0, hd0]
  · intro h
    rcases h with h | h <;>
      simp [ProductAnalytics.get_prediction_message, h]

/-- C5 witness: a record with both fields present and nonzero produces
the full message. -/
theorem spec2proof_C5_witness :
    (probeRecord "Tea" (some 7) (some 3) 0 50).get_prediction_message =
      "You usually buy " ++
        (probeRecord "Tea" (some 7) (some 3) 0 50).product_name ++
        " every " ++ toString (roundHalfEven 7) ++
        " days. Last purchase: " ++ toString (roundHalfEven 3) ++
        " days ago." :=
  (spec2proof_C5 (probeRecord "Tea" (some 7) (some 3) 0 50)).1 7 3
    rfl (by norm_num) rfl (by norm_num)

/-- C6: `update_analytics` computes `repurchase_probability` as
`total_purchases / max(occasions, 1) * 100`; the denominator is the
user's distinct-occasion count with zero replaced by 1, so it is
positive and the division is never by zero. -/
theorem spec2proof_C6 (uid : Nat) (name : String) (p : Int)
    (ps : List Int) (now : Int) (occ : Nat) (a : ProductAnalytics)
    (ha : update_analytics uid name (p :: ps) now occ = some a) :
    a.repurchase_probability =
      ((p :: ps).length : ℚ) / ((max occ 1 : Nat) : ℚ) * 100 ∧
    (0 : ℚ) < ((max occ 1 : Nat) : ℚ) := by
  simp only [update_analytics, Option.some.injEq] at ha
  subst ha
  constructor
  · cases occ <;> simp
  · have h1 : 1 ≤ max occ 1 := le_max_right occ 1
    exact_mod_cast Nat.lt_of_lt_of_le Nat.zero_lt_one h1

/-- C6 witness: the week-apart Milk record with 2 purchases over 2
occasions has probability 2/2*100 = 100, with positive denominator. -/
theorem spec2proof_C6_witness :
    milkWeekRecord.repurchase_probability = 100 ∧
      (0 : ℚ) < ((max 2 1 : Nat) : ℚ) := by
  have h := spec2proof_C6 7 "Milk" 0 [604800] 1209600 2 milkWeekRecord
    milkWeekRecord_eq
  refine ⟨?_, h.2⟩
  rw [h.1]
  norm_num

/-- C7: `get_urgency_status` maps each urgency score to exactly one
tier, with inclusive lower bounds 100 (OVERDUE), 85 (URGENT), 70
(SOON) and 50 (UPCOMING), and OPTIONAL below 50. -/
theorem spec2proof_C7 (a : ProductAnalytics) :
    (100 ≤ a.repurchase_urgency →
      a.get_urgency_status = "🔴 OVERDUE") ∧
    (85 ≤ a.repurchase_urgency ∧ a.repurchase_urgency < 100 →
      a.get_urgency_status = "🟠 URGENT") ∧
    (70 ≤ a.repurchase_urgency ∧ a.repurchase_urgency < 85 →
      a.get_urgency_status = "🟡 SOON") ∧
    (50 ≤ a.repurchase_urgency ∧ a.repurchase_urgency < 70 →
      a.get_urgency_status = "🟢 UPCOMING") ∧
    (a.repurchase_urgency < 50 →
      a.get_urgency_status = "⚪ OPTIONAL") := by
  unfold ProductAnalytics.get_urgency_status
  refine ⟨?_, ?_, ?_, ?_, ?_⟩ <;> intro h <;>
    [skip; obtain ⟨h1, h2⟩ := h; obtain ⟨h1, h2⟩ := h;
     obtain ⟨h1, h2⟩ := h; skip] <;>
    split_ifs <;> first | rfl | linarith

/-- C7 witness: the exact boundary scores 100, 85, 70, 50 and a score
below 50 land in the specified tiers. -/
theorem spec2proof_C7_witness :
    (probeRecord "A" none none 100 0).get_urgency_status =
      "🔴 OVERDUE" ∧
    (probeRecord "A" none none 85 0).get_urgency_status =
      "🟠 URGENT" ∧
    (probeRecord "A" none none 70 0).get_urgency_status = "🟡 SOON" ∧
    (probeRecord "A" none none 50 0).get_urgency_status =
      "🟢 UPCOMING" ∧
    (probeRecord "A" none none 49 0).get_urgency_status =
      "⚪ OPTIONAL" :=
  ⟨(spec2proof_C7 (probeRecord "A" none none 100 0)).1 (by norm_num [probeRecord]),
    (spec2proof_C7 (probeRecord "A" none none 85 0)).2.1
      ⟨by norm_num [probeRecord], by norm_num [probeRecord]⟩,
    (spec2proof_C7 (probeRecord "A" none none 70 0)).2.2.1
      ⟨by norm_num [probeRecord], by norm_num [probeRecord]⟩,
    (spec2proof_C7 (probeRecord "A" none none 50 0)).2.2.2.1
      ⟨by norm_num [probeRecord], by norm_num [probeRecord]⟩,
    (spec2proof_C7 (probeRecord "A" none none 49 0)).2.2.2.2
      (by norm_num [probeRecord])⟩

/-- C10: every prediction dict built by `get_predicted_purchases` draws
its `days_since_last` and `avg_interval` from some fetched analytics
row via `int(x or 0)`: an absent (or zero) stored value becomes the
integer 0, any other stored float is truncated toward zero. -/
theorem spec2proof_C10 (fetched : Except String (List ProductAnalytics))
    (th : ℚ) (lim : Nat) (pr : Prediction)
    (hp : pr ∈ get_predicted_purchases fetched th lim) :
    ∃ rows a, fetched = Except.ok rows ∧ a ∈ rows ∧
      pr.days_since_last = pyIntOr0 a.days_since_last_purchase ∧
      pr.avg_interval = pyIntOr0 a.avg_days_between_purchases := by
  match fetched with
  | .error e => simp [get_predicted_purchases] at hp
  | .ok rows =>
    simp only [get_predicted_purchases, List.mem_map] at hp
    obtain ⟨a, hmem, hpa⟩ := hp
    have h1 := List.mem_of_mem_take hmem
    have h2 := List.mem_mergeSort.mp h1
    have h3 := (List.mem_filter.mp h2).1
    exact ⟨rows, a, rfl, h3, by subst hpa; rfl, by subst hpa; rfl⟩

/-- C10 witness: a single stored row with `avg = -3/2` and an absent
`days_since_last_purchase` yields a view with `avg_interval = -1`
(truncation toward zero) and `days_since_last = 0`. -/
theorem spec2proof_C10_witness :
    ∃ rows a,
      (Except.ok [probeRecord "Jam" (some (-3/2)) none 55 50] :
        Except String (List ProductAnalytics)) = Except.ok rows ∧
      a ∈ rows ∧
      (mkPrediction (probeRecord "Jam" (some (-3/2)) none 55 50)
        ).days_since_last = pyIntOr0 a.days_since_last_purchase ∧
      (mkPrediction (probeRecord "Jam" (some (-3/2)) none 55 50)
        ).avg_interval = pyIntOr0 a.avg_days_between_purchases :=
  spec2proof_C10 (Except.ok [probeRecord "Jam" (some (-3/2)) none 55 50])
    0 10 (mkPrediction (probeRecord "Jam" (some (-3/2)) none 55 50))
    (by simp [get_predicted_purchases, probeRecord, List.filter])

end SmartShop
